import Mathlib

/-! Verification of the pixela_eval expression pipeline: tokenizer,
shunting-yard reordering, and postfix evaluation (src/parser.rs,
src/expression.rs, src/api.rs).

Modelling decisions, stated once:
* `f64` is modelled by `ℚ`. Every numeric literal and every arithmetic
  step appearing in a proved concrete evaluation here is exactly
  representable and exactly computed in binary64, so the rational value
  coincides with the `f64` value at those points.
* `f64::powf` is modelled by `powf` below, exact whenever the exponent is
  an integer (the only case any theorem here evaluates).
* `f64::sin`, `f64::cos`, `f64::tan` are irrational-valued; the evaluator
  is therefore parametrised by a `TrigModel` carrying the three unary
  interpretations, and every theorem about trigonometric tokens holds for
  every interpretation. Theorems on inputs without trigonometric tokens
  also quantify over the interpretation, showing independence from it.
* Rust panics (`unwrap` on a failed value, `todo!`, failed `assert!`)
  are modelled by an explicit `panicked` constructor, distinct from the
  `Result::Err` constructor `fail`.
* The derived `PartialEq` on `Operator` compares the function pointer
  field; since each symbol is built with exactly one function, it agrees
  with comparison of symbol, precedence and associativity, which is what
  `Operator.eqb` compares (the program only ever compares a token against
  `LeftParen`, where no operator field is inspected at all).
-/

namespace Pixela

/-- The numeric type of the interpreter (`f64` in the source). -/
abbrev Number := ℚ

/-- Model of `f64::powf`, exact on integer exponents; no theorem below
evaluates it elsewhere. -/
def powf (a b : Number) : Number :=
  if b.den = 1 then a ^ b.num else 0

/-- `struct Operator` from src/parser.rs. -/
structure Operator where
  symbol : Char
  precedence : ℕ
  is_left_associative : Bool
  operation : Number → Number → Number

/-- `enum Variable` from src/parser.rs. -/
inductive Variable where
  | X
  | Y
  | Z
deriving DecidableEq

/-- `enum Function` from src/parser.rs. -/
inductive Function where
  | Sin
  | Cos
  | Tan
deriving DecidableEq

/-- `enum Token` from src/parser.rs. -/
inductive Token where
  | Number : Pixela.Number → Token
  | Variable : Pixela.Variable → Token
  | Operator : Pixela.Operator → Token
  | LeftParen : Token
  | RightParen : Token
  | Negate : Token
  | Function : Pixela.Function → Token

/-- Equality test matching the derived `PartialEq` on the values the
program actually constructs (see header note). -/
def Operator.eqb (a b : Operator) : Bool :=
  a.symbol == b.symbol && a.precedence == b.precedence
    && a.is_left_associative == b.is_left_associative

/-- Equality test matching the derived `PartialEq` on `Token` for the
values the program constructs. -/
def Token.eqb : Token → Token → Bool
  | .Number a, .Number b => a == b
  | .Variable a, .Variable b => a == b
  | .Operator a, .Operator b => Operator.eqb a b
  | .LeftParen, .LeftParen => true
  | .RightParen, .RightParen => true
  | .Negate, .Negate => true
  | .Function a, .Function b => a == b
  | _, _ => false

/-- The `"+"` operator built by `parse_operator`. -/
def opAdd : Operator := ⟨'+', 2, true, fun a b => a + b⟩

/-- The `"*"` operator built by `parse_operator`. -/
def opMul : Operator := ⟨'*', 3, true, fun a b => a * b⟩

/-- The `"/"` operator built by `parse_operator`. -/
def opDiv : Operator := ⟨'/', 3, true, fun a b => a / b⟩

/-- The `"^"` operator built by `parse_operator`. -/
def opPow : Operator := ⟨'^', 4, false, powf⟩

/-- Value of a digit string read in base 10. -/
def digitsVal (s : List Char) : ℕ :=
  s.foldl (fun a c => 10 * a + (c.toNat - 48)) 0

/-- Model of `f64::from_str` on strings drawn from digits and the dot,
the only strings `parse_number` feeds it: it succeeds exactly when the
string has at most one dot and at least one digit. -/
def parseF64 (s : List Char) : Option Number :=
  if s.countP (fun c => c == '.') ≤ 1 && s.any Char.isDigit then
    let ip := s.takeWhile (fun c => c ≠ '.')
    let fp := (s.dropWhile (fun c => c ≠ '.')).drop 1
    some ((digitsVal ip : ℚ) + (digitsVal fp : ℚ) / (10 ^ fp.length))
  else none

/-- Result of one nom sub-parser: `Ok((rest, token))`, a recoverable
`Err`, or a Rust panic. -/
inductive PResult where
  | ok : List Char → Token → PResult
  | err : PResult
  | panicked : String → PResult

/-- nom `tag`: match a literal prefix. -/
def tag (t : String) (input : List Char) : Option (List Char) :=
  if input.take t.length = t.toList then some (input.drop t.length) else none

namespace Parser

/-- `Parser::parse_number`: `take_while1` over digits and dots, then
`f64::from_str(s).unwrap()` — the unwrap panics when `from_str` fails. -/
def parse_number (input : List Char) : PResult :=
  let s := input.takeWhile (fun c => c.isDigit || c == '.')
  if s.isEmpty then .err
  else
    match parseF64 s with
    | some q => .ok (input.drop s.length) (.Number q)
    | none => .panicked ("from_str unwrap")

/-- `Parser::parse_variable`: `alt` of the tags x, y, z. -/
def parse_variable (input : List Char) : PResult :=
  match input with
  | 'x' :: rest => .ok rest (.Variable .X)
  | 'y' :: rest => .ok rest (.Variable .Y)
  | 'z' :: rest => .ok rest (.Variable .Z)
  | _ => .err

/-- `Parser::parse_function`: `alt` of the tags sin, cos, tan. -/
def parse_function (input : List Char) : PResult :=
  match tag ("sin") input with
  | some rest => .ok rest (.Function .Sin)
  | none =>
    match tag ("cos") input with
    | some rest => .ok rest (.Function .Cos)
    | none =>
      match tag ("tan") input with
      | some rest => .ok rest (.Function .Tan)
      | none => .err

/-- `Parser::parse_operator`: `alt` over the single-character tags, then
the match building the token; for `-` a `peek(not(tag("-")))` turns the
parse into a recoverable error when another `-` follows. -/
def parse_operator (input : List Char) : PResult :=
  match input with
  | [] => .err
  | c :: rest =>
    if c == '+' then .ok rest (.Operator opAdd)
    else if c == '-' then
      match rest with
      | '-' :: _ => .err
      | _ => .ok rest .Negate
    else if c == '*' then .ok rest (.Operator opMul)
    else if c == '/' then .ok rest (.Operator opDiv)
    else if c == '^' then .ok rest (.Operator opPow)
    else if c == '(' then .ok rest .LeftParen
    else if c == ')' then .ok rest .RightParen
    else .err

/-- `Parser::token`: `alt` trying number, variable, operator, function in
that order; a recoverable error tries the next alternative, a panic
propagates. -/
def token (input : List Char) : PResult :=
  match parse_number input with
  | .ok r t => .ok r t
  | .panicked m => .panicked m
  | .err =>
    match parse_variable input with
    | .ok r t => .ok r t
    | .panicked m => .panicked m
    | .err =>
      match parse_operator input with
      | .ok r t => .ok r t
      | .panicked m => .panicked m
      | .err => parse_function input

/-- Result of `Parser::tokens` (`many0`): remaining input and token list,
a recoverable error, or a panic. -/
inductive TokensResult where
  | ok : List Char → List Token → TokensResult
  | err : TokensResult
  | panicked : String → TokensResult

/-- Whether a `many0` outcome is a Rust panic. -/
def TokensResult.isPanicked : TokensResult → Bool
  | .panicked _ => true
  | _ => false

/-- nom `many0(token)`: accumulate until the sub-parser errs; nom returns
an error if the sub-parser succeeds without consuming (never happens for
`token`, which always consumes on success). The first argument is fuel
bounding the number of iterations, kept strictly above the length of the
remaining input by every caller, so the exhaustion branch is unreachable
(`many0Token_fuel_irrelevant` below shows the fuel does not matter once
it is large enough). -/
def many0Token : ℕ → List Char → List Token → TokensResult
  | 0, _, _ => .err
  | fuel + 1, input, acc =>
    match token input with
    | .err => .ok input acc
    | .panicked m => .panicked m
    | .ok rest t =>
      if rest.length < input.length then
        many0Token fuel rest (acc ++ [t])
      else .err

/-- `Parser::new`: strip all whitespace from the input. -/
def new (i : String) : List Char :=
  i.toList.filter (fun c => !c.isWhitespace)

/-- `Parser::tokens` applied to `Parser::new(i)`: scan the stripped input
into tokens. -/
def tokens (i : String) : TokensResult :=
  many0Token ((new i).length + 1) (new i) []

/-- Result of a fallible step: `Ok`, `Err(description)`, or a panic. -/
inductive RResult (α : Type) where
  | ok : α → RResult α
  | fail : String → RResult α
  | panicked : String → RResult α
deriving DecidableEq

/-- Whether an outcome is a Rust panic. -/
def RResult.isPanicked {α : Type} : RResult α → Bool
  | .panicked _ => true
  | _ => false

/-- The single-quote character, for building the error strings. -/
def sq : String := String.mk [Char.ofNat 39]

/-- The reorderer error for an unmatched right parenthesis. -/
def mismatchedRight : String := "Mismatched " ++ sq ++ ")" ++ sq

/-- The reorderer error for an unmatched left parenthesis. -/
def mismatchedLeft : String := "Mismatched " ++ sq ++ "(" ++ sq

/-- `Parser::tilt_until`: pop operators to the output until `stop` is
found (returning true) or the stack empties (returning false); returns
the flag with the remaining operator stack and the extended output. -/
def tilt_until : List Token → List Token → Token → Bool × List Token × List Token
  | [], output, _stop => (false, [], output)
  | t :: rest, output, stop =>
    if Token.eqb t stop then (true, rest, output)
    else tilt_until rest (output ++ [t]) stop

/-- The `while let Some(top) = operators.top()` loop run when
`shunting_yard` meets a binary operator: pop higher-precedence (or equal
with left associativity) operators to the output, break on a left
parenthesis or a failed comparison; every other token variant on the
stack hits a `todo!` (or, for a right parenthesis, an inner loop whose
`assert!` must fail), i.e. a panic. -/
def syOpLoop (operator : Operator) :
    List Token → List Token → RResult (List Token × List Token)
  | [], output => .ok ([], output)
  | top :: rest, output =>
    match top with
    | .LeftParen => .ok (top :: rest, output)
    | .Operator top_op =>
      if (top_op.is_left_associative && decide (top_op.precedence ≥ operator.precedence))
          || (!top_op.is_left_associative && decide (top_op.precedence > operator.precedence))
      then syOpLoop operator rest (output ++ [top])
      else .ok (top :: rest, output)
    | .Number _ => .panicked ("not yet implemented")
    | .Variable _ => .panicked ("not yet implemented")
    | .RightParen => .panicked ("assertion failed")
    | .Negate => .panicked ("not yet implemented")
    | .Function _ => .panicked ("not yet implemented")

/-- The main token loop of `Parser::shunting_yard`, carrying the operator
stack and the output sequence. -/
def syLoop : List Token → List Token → List Token → RResult (List Token × List Token)
  | [], operators, output => .ok (operators, output)
  | t :: ts, operators, output =>
    match t with
    | .Number _ => syLoop ts operators (output ++ [t])
    | .LeftParen => syLoop ts (t :: operators) output
    | .Function _ => syLoop ts (t :: operators) output
    | .Variable _ => syLoop ts operators (output ++ [t])
    | .Negate => syLoop ts (t :: operators) output
    | .Operator operator =>
      match syOpLoop operator operators output with
      | .panicked m => .panicked m
      | .fail m => .fail m
      | .ok (ops2, out2) => syLoop ts (t :: ops2) out2
    | .RightParen =>
      match tilt_until operators output .LeftParen with
      | (true, ops2, out2) => syLoop ts ops2 out2
      | (false, _, _) => .fail mismatchedRight

/-- `Parser::shunting_yard`: run the token loop, then drain the operator
stack; finding a stray left parenthesis is the mismatch error, and the
final `assert!(operators.is_empty())` is modelled faithfully. -/
def shunting_yard (toks : List Token) : RResult (List Token) :=
  match syLoop toks [] [] with
  | .panicked m => .panicked m
  | .fail m => .fail m
  | .ok (operators, output) =>
    match tilt_until operators output .LeftParen with
    | (true, _, _) => .fail mismatchedLeft
    | (false, ops2, out2) =>
      if ops2.isEmpty then .ok out2 else .panicked ("assertion failed")

/-- Interpretations of the three unary `f64` trigonometric functions (see
header note). -/
structure TrigModel where
  fsin : Number → Number
  fcos : Number → Number
  ftan : Number → Number

/-- Dispatch of a `Function` tag to its interpretation. -/
def TrigModel.applyFunc (T : TrigModel) : Function → Number → Number
  | .Sin => T.fsin
  | .Cos => T.fcos
  | .Tan => T.ftan

/-- The trivial interpretation, used to instantiate universally
quantified theorems at a concrete point. -/
def T0 : TrigModel := ⟨fun _ => 0, fun _ => 0, fun _ => 0⟩

/-- The evaluator error for a binary operator finding fewer than two
operands. -/
def missingOperand (c : Char) : String :=
  "Missing operand for operator " ++ sq ++ String.mk [c] ++ sq

/-- The evaluator error for a final stack of size other than one. -/
def stackSizeMsg (n : ℕ) : String :=
  "Expected 1 value on stack, found " ++ toString n

/-- One iteration of the token loop of `Parser::calculate`: the effect of
a single postfix token on the operand stack. Numbers push; functions and
`Negate` replace the top when present and silently do nothing on an empty
stack; a binary operator pops two values or fails; variables pop the top
and push it back unchanged; parenthesis tokens hit the `unreachable!`
arm. -/
def calcStep (T : TrigModel) (stack : List Number) : Token → RResult (List Number)
  | .Number n => .ok (n :: stack)
  | .Function f =>
    match stack with
    | [] => .ok []
    | x :: rest => .ok (T.applyFunc f x :: rest)
  | .Operator operator =>
    match stack with
    | y :: x :: rest => .ok (operator.operation x y :: rest)
    | _ => .fail (missingOperand operator.symbol)
  | .Negate =>
    match stack with
    | [] => .ok []
    | x :: rest => .ok ((-x) :: rest)
  | .Variable _ =>
    match stack with
    | [] => .ok []
    | x :: rest => .ok (x :: rest)
  | .LeftParen => .panicked ("unreachable token")
  | .RightParen => .panicked ("unreachable token")

/-- The token loop of `Parser::calculate`, threading the operand stack. -/
def calcFold (T : TrigModel) : List Token → List Number → RResult (List Number)
  | [], stack => .ok stack
  | t :: ts, stack =>
    match calcStep T stack t with
    | .ok s2 => calcFold T ts s2
    | .fail m => .fail m
    | .panicked m => .panicked m

/-- `Parser::calculate`: run the loop from an empty stack, then demand
exactly one remaining value. -/
def calculate (T : TrigModel) (toks : List Token) : RResult Number :=
  match calcFold T toks [] with
  | .fail m => .fail m
  | .panicked m => .panicked m
  | .ok [x] => .ok x
  | .ok s => .fail (stackSizeMsg s.length)

end Parser

/-- `Expression::eval_with_var` from src/expression.rs: tokenize, then
`unwrap()` the nom result (a panic on `Err`; the unconsumed remainder is
discarded), `unwrap()` the shunting-yard result (a panic on `Err`), and
collapse the calculate result to an optional number. -/
def Expression.eval_with_var (T : Parser.TrigModel) (input : String) :
    Parser.RResult (Option Number) :=
  match Parser.tokens input with
  | .err => .panicked ("unwrap on Err")
  | .panicked m => .panicked m
  | .ok _rest toks =>
    match Parser.shunting_yard toks with
    | .fail _ => .panicked ("unwrap on Err")
    | .panicked m => .panicked m
    | .ok rpn =>
      match Parser.calculate T rpn with
      | .ok q => .ok (some q)
      | .fail _ => .ok none
      | .panicked m => .panicked m

/-- `eval` from src/api.rs: record the optional x-value (defaulted to 0)
in a binding table that nothing reads, then run `eval_with_var`. -/
def eval (T : Parser.TrigModel) (input : String) (x : Option Number) :
    Parser.RResult (Option Number) :=
  let _variables : List (String × Number) := [("x", x.getD 0)]
  Expression.eval_with_var T input

end Pixela

namespace Pixela

open Parser

unseal Rat.add Rat.mul Rat.inv Rat.sub Rat.ofScientific

/-- Sanity of the fuel in `many0Token`: any two fuels strictly above the
length of the remaining input give the same outcome, so the exhaustion
branch of the model is unreachable from `tokens`. -/
theorem many0Token_fuel_irrelevant :
    ∀ (f1 f2 : ℕ) (input : List Char) (acc : List Token),
      input.length < f1 → input.length < f2 →
      Parser.many0Token f1 input acc = Parser.many0Token f2 input acc := by
  intro f1
  induction f1 with
  | zero => intro f2 input acc h1; omega
  | succ f1 ih =>
    intro f2 input acc h1 h2
    match f2, h2 with
    | f2 + 1, h2 =>
      simp only [Parser.many0Token]
      cases Parser.token input with
      | err => rfl
      | panicked m => rfl
      | ok rest t =>
        by_cases hc : rest.length < input.length
        · simp only [hc, if_true]
          exact ih f2 rest (acc ++ [t]) (by omega) (by omega)
        · simp only [hc, if_false]

/-- C1: refuted on the code. The claim says `eval` returns a present or
absent result for every input and never panics, including on mismatched
parentheses. In fact `eval_with_var` unwraps the shunting-yard result, so
an unmatched right or left parenthesis turns the descriptive mismatch
error into a panic, for every trigonometric interpretation. -/
theorem c1_eval_panics_on_mismatched_paren (T : Parser.TrigModel) :
    (eval T (")") none).isPanicked = true ∧
    (eval T ("(") none).isPanicked = true := by
  exact ⟨by rfl, by rfl⟩

/-- C2: refuted on the code. The tokenizer produces the sequence
Negate, 1, +, 2 from the input string consisting of minus, 1, plus, 2;
feeding that sequence to `shunting_yard` reaches the unimplemented
`todo!` arm for a `Negate` token sitting on the operator stack when the
binary operator is processed, i.e. a panic rather than an Ok result or a
parenthesis-mismatch error. -/
theorem c2_shunting_yard_panics_after_negate :
    Parser.tokens ("-1+2") = .ok [] [.Negate, .Number 1, .Operator opAdd, .Number 2] ∧
    (Parser.shunting_yard [.Negate, .Number 1, .Operator opAdd, .Number 2]).isPanicked = true := by
  exact ⟨by rfl, by rfl⟩

/-- C3 counterexample: the claim says unconsumed trailing input is a
tokenization failure and the caller receives an absent result. On the
input 1 followed by an ampersand, tokenization stops with the ampersand
unconsumed, yet the pipeline returns the numeric result 1. -/
theorem c3_trailing_input_yields_numeric_result :
    Parser.tokens ("1&") = .ok ['&'] [.Number 1] ∧
    eval Parser.T0 ("1&") none = .ok (some 1) := by
  exact ⟨by rfl, by rfl⟩

/-- C3 amended: `many0` does not require full consumption and the
pipeline discards the unconsumed remainder, so the result of
`eval_with_var` is determined by the token list alone: two inputs whose
tokenizations yield the same token list (with possibly different
remainders) evaluate identically. -/
theorem c3_remainder_ignored (T : Parser.TrigModel) (s1 s2 : String)
    (r1 r2 : List Char) (toks : List Token)
    (h1 : Parser.tokens s1 = .ok r1 toks)
    (h2 : Parser.tokens s2 = .ok r2 toks) :
    Expression.eval_with_var T s1 = Expression.eval_with_var T s2 := by
  unfold Expression.eval_with_var
  rw [h1, h2]

/-- C3 witness: the input 1-ampersand (remainder the ampersand) and the
input 1 (empty remainder) tokenize to the same token list and evaluate
identically. -/
theorem c3_remainder_ignored_witness :
    Expression.eval_with_var Parser.T0 ("1&") = Expression.eval_with_var Parser.T0 ("1") :=
  c3_remainder_ignored Parser.T0 ("1&") ("1") ['&'] [] [.Number 1] (by rfl) (by rfl)

/-- C4: refuted on the code. The claim says the tokenizer returns a token
or an error on every string of digits and dots, never a panic. In fact
`parse_number` consumes the whole digit-and-dot run and unwraps the
`f64::from_str` result, which fails on a second dot: tokenizing 1.2.3
panics. -/
theorem c4_tokenizer_panics_on_two_dots :
    Parser.parse_number (("1.2.3").toList) = .panicked ("from_str unwrap") ∧
    (Parser.tokens ("1.2.3")).isPanicked = true := by
  exact ⟨by rfl, by rfl⟩

/-- C5: confirmed. A `^` on top of the operator stack is not popped when
another `^` of equal precedence arrives (the pop rule requires strictly
greater precedence for right-associative operators), and the pipeline
evaluates 2^3^2 to 512, not 64, for every trigonometric
interpretation. -/
theorem c5_pow_right_associative :
    (∀ ops output, Parser.syOpLoop opPow (.Operator opPow :: ops) output =
      .ok (.Operator opPow :: ops, output)) ∧
    (∀ T, Expression.eval_with_var T ("2^3^2") = .ok (some 512)) ∧
    (∀ T, Expression.eval_with_var T ("2^3^2") ≠ .ok (some 64)) := by
  refine ⟨fun ops output => rfl, fun T => by rfl, fun T h => ?_⟩
  rw [show Expression.eval_with_var T ("2^3^2") = .ok (some 512) by rfl] at h
  exact absurd h (by decide)

/-- C6: confirmed. The full pipeline honors precedence and parenthesis
grouping on the three spec inputs: 4 + 2 * 3 gives 10, 4.5 + 2 * 3 gives
21/2 (that is, 10.5), and 4 * (2 + 3) gives 20, for every trigonometric
interpretation. -/
theorem c6_precedence_and_parens (T : Parser.TrigModel) :
    Expression.eval_with_var T ("4 + 2 * 3") = .ok (some 10) ∧
    Expression.eval_with_var T ("4.5 + 2 * 3") = .ok (some (21 / 2)) ∧
    Expression.eval_with_var T ("4 * (2 + 3)") = .ok (some 20) := by
  exact ⟨by rfl, by rfl, by rfl⟩

/-- C7: confirmed. A binary operator token pops the right operand then
the left and pushes the reduction when the stack holds at least two
values; on a stack of fewer than two values it fails with the
missing-operand message naming the operator symbol; and the singleton
sequence consisting of one operator token makes `calculate` fail with
that message. -/
theorem c7_operator_pops_two_or_fails (T : Parser.TrigModel) (op : Operator) :
    (∀ (x y : Number) (rest : List Number),
      Parser.calcStep T (y :: x :: rest) (.Operator op) = .ok (op.operation x y :: rest)) ∧
    (∀ stack : List Number, stack.length < 2 →
      Parser.calcStep T stack (.Operator op) = .fail (Parser.missingOperand op.symbol)) ∧
    Parser.calculate T [.Operator op] = .fail (Parser.missingOperand op.symbol) := by
  refine ⟨fun x y rest => rfl, ?_, rfl⟩
  intro stack h
  match stack with
  | [] => rfl
  | [x] => rfl
  | x :: y :: rest =>
    simp only [List.length_cons] at h
    omega

/-- C7 witness: on the empty stack the plus operator fails with the
missing-operand message, and so does `calculate` on the singleton
sequence. -/
theorem c7_operator_witness :
    Parser.calcStep Parser.T0 [] (.Operator opAdd) = .fail (Parser.missingOperand '+') ∧
    Parser.calculate Parser.T0 [.Operator opAdd] = .fail (Parser.missingOperand '+') :=
  ⟨(c7_operator_pops_two_or_fails Parser.T0 opAdd).2.1 [] (by decide),
   (c7_operator_pops_two_or_fails Parser.T0 opAdd).2.2⟩

/-- C8: confirmed. A variable token is a pass-through no-op in the
evaluator: it maps every operand stack to itself (the top value is
popped and pushed back, the empty stack stays empty, never a failure),
and consequently inserting a variable token anywhere in a token sequence
does not change the result of `calculate`. -/
theorem c8_variable_noop (T : Parser.TrigModel) (v : Variable) :
    (∀ stack : List Number, Parser.calcStep T stack (.Variable v) = .ok stack) ∧
    (∀ xs ys : List Token,
      Parser.calculate T (xs ++ .Variable v :: ys) = Parser.calculate T (xs ++ ys)) := by
  have hstep : ∀ stack : List Number, Parser.calcStep T stack (.Variable v) = .ok stack := by
    intro stack
    cases stack <;> rfl
  have hfold : ∀ (xs ys : List Token) (s : List Number),
      Parser.calcFold T (xs ++ .Variable v :: ys) s = Parser.calcFold T (xs ++ ys) s := by
    intro xs
    induction xs with
    | nil =>
      intro ys s
      simp [Parser.calcFold, hstep]
    | cons t xs ih =>
      intro ys s
      simp only [List.cons_append, Parser.calcFold]
      cases Parser.calcStep T s t <;> simp [ih]
  refine ⟨hstep, fun xs ys => ?_⟩
  unfold Parser.calculate
  rw [hfold]

/-- C9: confirmed. The optional x-value handed to `eval` is written into
a binding table that the evaluation path never reads, so any two
x-values (including none) produce identical results on every expression
string and every trigonometric interpretation. -/
theorem c9_xvalue_ignored (T : Parser.TrigModel) (s : String) (v1 v2 : Option Number) :
    eval T s v1 = eval T s v2 :=
  rfl

/-- C10: confirmed. On the empty operand stack a function token or a
`Negate` token leaves the stack empty with no failure; on a non-empty
stack the function token replaces the top value with the corresponding
unary interpretation of it, and `Negate` replaces the top value with its
negation. -/
theorem c10_unary_permissive_underflow (T : Parser.TrigModel) :
    (∀ f : Function, Parser.calcStep T [] (.Function f) = .ok []) ∧
    (∀ (v : Number) (rest : List Number),
      Parser.calcStep T (v :: rest) (.Function .Sin) = .ok (T.fsin v :: rest)) ∧
    (∀ (v : Number) (rest : List Number),
      Parser.calcStep T (v :: rest) (.Function .Cos) = .ok (T.fcos v :: rest)) ∧
    (∀ (v : Number) (rest : List Number),
      Parser.calcStep T (v :: rest) (.Function .Tan) = .ok (T.ftan v :: rest)) ∧
    Parser.calcStep T [] .Negate = .ok [] ∧
    (∀ (v : Number) (rest : List Number),
      Parser.calcStep T (v :: rest) .Negate = .ok ((-v) :: rest)) :=
  ⟨fun _f => rfl, fun _ _ => rfl, fun _ _ => rfl, fun _ _ => rfl, rfl, fun _ _ => rfl⟩

end Pixela
